import Mathlib

/-!
# Verification of the autodetect image-classification core

Shallow embedding of the two core components of the repository:

* the Decoder/Normalizer `imageToTensor` (src `constants/imageToSensor.ts`),
  which decodes a base64 JPEG into an RGBA pixel grid, normalizes the RGB
  channels to [0,1], builds a `[height, width, 3]` tensor, resizes it
  bilinearly to `[224, 224, 3]` and prepends a batch dimension; and
* the model lifecycle logic of the capture screen (src `app/(tabs)/index.tsx`):
  `loadModelAsync` (cached load, progress reporting, warm-up inference) and
  `processImage` (decode, forward pass, label pairing, disposal).

Machine floats are modelled as exact rationals; JPEG decoding and the
TensorFlow.js runtime are external libraries, modelled abstractly: decoding is
a parameter producing an `RGBA` pixel grid or a decode error, and the tensor
runtime is modelled by an allocation state (`TfState`) tracking which tensor
buffers are live, mirroring `tf.memory().numTensors`.
-/

/-- Decoded pixel grid as produced by `jpeg.decode(..., {useTArray: true})`:
`width`, `height`, and the interleaved row-major RGBA byte buffer `data`
(4 bytes per pixel, each in 0..255). -/
structure RawImage where
  width : Nat
  height : Nat
  data : List Nat
deriving DecidableEq, Repr

/-- Well-formedness of a decoder result: the buffer holds exactly
`width * height` RGBA quadruples and every channel sample is a byte.
`jpeg-js` guarantees both for every successful decode. -/
def RawImage.wf (img : RawImage) : Prop :=
  img.data.length = img.width * img.height * 4 ∧ ∀ b ∈ img.data, b ≤ 255

instance (img : RawImage) : Decidable img.wf := by
  unfold RawImage.wf; infer_instance

/-- A tensor: shape and flat row-major data, elements modelled as exact
rationals in place of 32-bit floats. -/
structure Tensor where
  shape : List Nat
  data : List ℚ
deriving DecidableEq, Repr

/-- The normalization loop of `imageToTensor`:
`for (let i = 0; i < data.length; i += 4) { buffer[offset++] = data[i]/255;
buffer[offset++] = data[i+1]/255; buffer[offset++] = data[i+2]/255 }` —
walks the RGBA buffer in 4-byte strides, emits R/255, G/255, B/255 per
pixel and skips the alpha byte.  The decoder always supplies a buffer whose
length is a multiple of 4, so the catch-all branch is never reached on
decoder output. -/
def normalizeRGBA : List Nat → List ℚ
  | r :: g :: b :: _a :: rest =>
      (r : ℚ) / 255 :: (g : ℚ) / 255 :: (b : ℚ) / 255 :: normalizeRGBA rest
  | _ => []

/-- `tf.tensor3d(buffer, [h, w, c])`.  (tfjs validates
`buffer.length = h * w * c`; the theorems below supply that fact through
`RawImage.wf`.) -/
def tensor3d (buffer : List ℚ) (h w c : Nat) : Tensor :=
  ⟨[h, w, c], buffer⟩

/-- Read element `[row, col, ch]` of a rank-3 tensor with row length `w` and
`c` channels, laid out row-major.  Out-of-range reads default to 0 (they do
not occur for in-range bilinear source indices). -/
def at3 (t : Tensor) (w c row col ch : Nat) : ℚ :=
  t.data.getD ((row * w + col) * c + ch) 0

/-- Linear interpolation as computed by the tfjs CPU kernel:
`top + (bottom - top) * frac`. -/
def lerp (a b t : ℚ) : ℚ :=
  a + (b - a) * t

/-- One output cell of the tfjs CPU bilinear-resize kernel for an input of
shape `[h, w, c]` resized to `[oh, ow, c]`: the source fractional index of
output row `r` is `r * (h / oh)` (the default
`alignCorners = false, halfPixelCenters = false` scaling); the cell is
interpolated between `floor` and `min (h-1) ceil` of that index (likewise
for columns), columns lerped first, then rows. -/
def bilinearValue (t : Tensor) (h w c oh ow r cl ch : Nat) : ℚ :=
  let sourceFracRow : ℚ := (r : ℚ) * ((h : ℚ) / (oh : ℚ))
  let sourceFracCol : ℚ := (cl : ℚ) * ((w : ℚ) / (ow : ℚ))
  let rowFloor : Nat := (⌊sourceFracRow⌋).toNat
  let rowCeil : Nat := min (h - 1) (⌈sourceFracRow⌉).toNat
  let colFloor : Nat := (⌊sourceFracCol⌋).toNat
  let colCeil : Nat := min (w - 1) (⌈sourceFracCol⌉).toNat
  let rowFrac : ℚ := sourceFracRow - (rowFloor : ℚ)
  let colFrac : ℚ := sourceFracCol - (colFloor : ℚ)
  let topLeft := at3 t w c rowFloor colFloor ch
  let topRight := at3 t w c rowFloor colCeil ch
  let bottomLeft := at3 t w c rowCeil colFloor ch
  let bottomRight := at3 t w c rowCeil colCeil ch
  lerp (lerp topLeft topRight colFrac) (lerp bottomLeft bottomRight colFrac) rowFrac

/-- `tf.image.resizeBilinear(t, [oh, ow])` with the default
`alignCorners = false, halfPixelCenters = false`.  Defined on rank-3
inputs, the only rank `imageToTensor` uses; tfjs raises on other ranks,
modelled here by returning the input unchanged. -/
def resizeBilinear (t : Tensor) (oh ow : Nat) : Tensor :=
  match t.shape with
  | [h, w, c] =>
    ⟨[oh, ow, c],
      (List.range (oh * ow * c)).map fun i =>
        bilinearValue t h w c oh ow (i / (ow * c)) (i / c % ow) (i % c)⟩
  | _ => t

/-- `resized.expandDims(0)`: prepend a singleton batch axis. -/
def expandDims0 (t : Tensor) : Tensor :=
  ⟨1 :: t.shape, t.data⟩

/-- The pure value computed by `imageToTensor` after a successful decode:
normalize the RGBA buffer, view it as `[height, width, 3]`, resize
bilinearly to `[224, 224]`, prepend the batch axis. -/
def imageToTensor (img : RawImage) : Tensor :=
  let buffer := normalizeRGBA img.data
  let imageTensor := tensor3d buffer img.height img.width 3
  let resized := resizeBilinear imageTensor 224 224
  expandDims0 resized

/-- The error thrown by `jpeg.decode` on malformed input (e.g. `new
Error("SOI not found")` for a truncated or non-JPEG buffer): the spec's
`DecodeError`. -/
structure DecodeError where
  msg : String
deriving DecidableEq, Repr

/-- `imageToTensor` as the caller sees it: `jpeg.decode` (an external
library, passed as the `decode` parameter) either yields a `RawImage` or
throws; the function body has no try/catch, so a decode failure propagates
unchanged and nothing else is thrown before the pure tensor pipeline. -/
def imageToTensorE (decode : List Nat → Except DecodeError RawImage)
    (bytes : List Nat) : Except DecodeError Tensor :=
  match decode bytes with
  | .error e => .error e
  | .ok img => .ok (imageToTensor img)

/-!
## The tensor runtime's allocation state

tfjs tensors are native buffers that survive garbage collection until
`dispose()` is called; `tf.memory().numTensors` counts the live ones.
`TfState` records the live tensors (fresh id paired with the tensor value);
each tensor-producing op allocates, `dispose` releases.
-/

/-- Live-tensor registry of the tfjs backend. -/
structure TfState where
  nextId : Nat
  live : List (Nat × Tensor)
deriving DecidableEq, Repr

/-- Allocate a tensor: a fresh id is tracked as live. -/
def allocT (s : TfState) (t : Tensor) : Nat × TfState :=
  (s.nextId, ⟨s.nextId + 1, s.live ++ [(s.nextId, t)]⟩)

/-- `tensor.dispose()`: the id stops being tracked. -/
def disposeT (id : Nat) (s : TfState) : TfState :=
  ⟨s.nextId, s.live.filter fun p => p.1 ≠ id⟩

/-- `tf.memory().numTensors`: how many tensor buffers are live. -/
def numTensors (s : TfState) : Nat :=
  s.live.length

/-- `tf.zeros(shape)`: a zero-filled tensor of the given shape. -/
def zerosT (shape : List Nat) : Tensor :=
  ⟨shape, List.replicate shape.prod 0⟩

/-- `imageToTensor` with its allocations made explicit: `tf.tensor3d`,
`tf.image.resizeBilinear` and `expandDims` each allocate a tensor, and the
function body contains no `dispose()` call; only the batched tensor's id is
returned to the caller. -/
def imageToTensorAlloc (img : RawImage) (s : TfState) : Nat × TfState :=
  let buffer := normalizeRGBA img.data
  let imageTensor := tensor3d buffer img.height img.width 3
  let resized := resizeBilinear imageTensor 224 224
  let batched := expandDims0 resized
  let (_itId, s1) := allocT s imageTensor
  let (_rzId, s2) := allocT s1 resized
  let (btId, s3) := allocT s2 batched
  (btId, s3)

/-!
## Model lifecycle: `loadModelAsync`

`loadModelAsync(onProgress?)` from `app/(tabs)/index.tsx`.  External
effects are recorded as an event trace: progress-callback invocations
(`onProgress?.(n)`), asset reads (the two `require` calls for `model.json`
and `weights.bin`), and forward passes (`model.predict`).  The outcomes of
the external steps — asset resolution, `tf.loadLayersModel`, and the
warm-up `predict` — are supplied by a `LoadEnv`; the stage at which the
environment makes the load fail is the thrown error, which the `catch`
block re-throws unchanged after logging.
-/

/-- Externally observable events of the lifecycle functions. -/
inductive Event where
  | progress (n : Nat)
  | assetRead
  | predictRun (input : Tensor)
deriving DecidableEq, Repr

/-- The three fallible stages of an uncached load. -/
inductive LoadStage where
  | assets
  | construct
  | warmup
deriving DecidableEq, Repr

/-- Outcome environment for one `loadModelAsync` call: at which stage (if
any) the external steps fail, the handle `tf.loadLayersModel` would return,
and the output tensor of the warm-up forward pass. -/
structure LoadEnv where
  failAt : Option LoadStage
  modelId : Nat
  warmupOut : Tensor
deriving DecidableEq, Repr

/-- Module-level state of `app/(tabs)/index.tsx`: the tfjs registry plus
`let modelCache: tf.LayersModel | null = null` (model handles stored by
id). -/
structure AppState where
  tf : TfState
  modelCache : Option Nat
deriving DecidableEq, Repr

/-- `loadModelAsync`: return the cache if set (no events at all); otherwise
report 10, read the two assets, report 30, construct the model, report 80,
run the warm-up `predict` on `tf.zeros([1,224,224,3])`, dispose the dummy
input, report 100, cache and return the handle.  A failure at any stage is
re-thrown with the state reached so far (nothing is rolled back, and the
cache assignment only happens after every stage has succeeded). -/
def loadModelAsync (env : LoadEnv) (s : AppState) :
    Except LoadStage Nat × AppState × List Event :=
  match s.modelCache with
  | some m => (.ok m, s, [])
  | none =>
    if env.failAt = some .assets then
      (.error .assets, s, [.progress 10])
    else if env.failAt = some .construct then
      (.error .construct, s, [.progress 10, .assetRead, .assetRead, .progress 30])
    else
      let dummyInput := zerosT [1, 224, 224, 3]
      let (dummyId, tf1) := allocT s.tf dummyInput
      if env.failAt = some .warmup then
        (.error .warmup, ⟨tf1, s.modelCache⟩,
          [.progress 10, .assetRead, .assetRead, .progress 30, .progress 80,
           .predictRun dummyInput])
      else
        let (_outId, tf2) := allocT tf1 env.warmupOut
        let tf3 := disposeT dummyId tf2
        (.ok env.modelId, ⟨tf3, some env.modelId⟩,
          [.progress 10, .assetRead, .assetRead, .progress 30, .progress 80,
           .predictRun dummyInput, .progress 100])

/-!
## Prediction: `processImage`

`processImage(base64Image)` of the capture screen, for a component whose
`model` state is the loaded handle.  The decode outcome (inside
`imageToTensor`) and the forward-pass outcome are supplied by a `PEnv`.
-/

/-- A failure of `model.predict` / `prediction.data()` (invalid handle,
shape mismatch, backend failure): the spec's `InferenceError`. -/
structure InferenceError where
  msg : String
deriving DecidableEq, Repr

/-- Outcome environment for one `processImage` call: the decode result and
the forward pass's output probability vector (or its failure). -/
structure PEnv where
  decodeResult : Except DecodeError RawImage
  predictResult : Except InferenceError (List ℚ)

/-- Component state touched by `processImage`: the tfjs registry, the
module-level `modelCache`, the component's `model`, `predictionResult` and
`analyzing` state hooks. -/
structure CompState where
  tf : TfState
  modelCache : Option Nat
  model : Option Nat
  predictionResult : Option (List (String × String))
  analyzing : Bool

/-- `const classNames = ['Clean', 'Dirty', 'Invalid']`. -/
def classNames : List String :=
  ["Clean", "Dirty", "Invalid"]

/-- Two-digit left pad for the fractional part of `toFixed(2)`. -/
def pad2 (n : Nat) : String :=
  if n < 10 then "0" ++ toString n else toString n

/-- Render `n` hundredths as a fixed two-decimal string. -/
def fixed2OfNat (n : Nat) : String :=
  toString (n / 100) ++ "." ++ pad2 (n % 100)

/-- JavaScript `x.toFixed(2)` over exact rationals: round to the nearest
hundredth, ties away from zero (ECMA-262 picks the larger candidate for the
magnitude), with the sign emitted first for negative inputs. -/
def toFixed2 (q : ℚ) : String :=
  if q < 0 then "-" ++ fixed2OfNat (⌊-q * 100 + 1 / 2⌋).toNat
  else fixed2OfNat (⌊q * 100 + 1 / 2⌋).toNat

/-- `classNames.map((label, index) => ({label, confidence:
(result[index] * 100).toFixed(2) + '%'}))`. -/
def resultWithAnalysis (result : List ℚ) : List (String × String) :=
  classNames.mapIdx fun index label =>
    (label, toFixed2 (result.getD index 0 * 100) ++ "%")

/-- The three error rows `setPredictionResult` receives on failures. -/
def errorRow (msg : String) : List (String × String) :=
  [(msg, "null")]

/-- `processImage`: bail out if no model is loaded; otherwise run
`imageToTensor` (whose decode may throw before any allocation), run the
forward pass (allocating the prediction tensor on success), pair the output
positionally with `classNames`, then dispose the input and prediction
tensors — dispose calls sit inside the `try` block only, so the `catch`
path disposes nothing.  `finally` clears `analyzing` on every path, and no
path writes `modelCache` or `model`. -/
def processImage (env : PEnv) (s : CompState) : CompState :=
  match s.model with
  | none =>
    { s with predictionResult := some (errorRow "Error: Model not loaded."),
             analyzing := false }
  | some _m =>
    match env.decodeResult with
    | .error _ =>
      { s with predictionResult := some (errorRow "Error: Failed to process image."),
               analyzing := false }
    | .ok img =>
      let (btId, tf1) := imageToTensorAlloc img s.tf
      match env.predictResult with
      | .error _ =>
        { s with tf := tf1,
                 predictionResult := some (errorRow "Error: Failed to process image."),
                 analyzing := false }
      | .ok result =>
        let (predId, tf2) := allocT tf1 ⟨[1, classNames.length], result⟩
        let analysis := resultWithAnalysis result
        let tf3 := disposeT btId tf2
        let tf4 := disposeT predId tf3
        { s with tf := tf4, predictionResult := some analysis, analyzing := false }

/-!
## Helper lemmas: unit-interval bounds through the pipeline
-/

/-- A byte divided by 255 lies in `[0, 1]`. -/
theorem byte_div_bounds (r : Nat) (hr : r ≤ 255) :
    0 ≤ (r : ℚ) / 255 ∧ (r : ℚ) / 255 ≤ 1 := by
  constructor
  · positivity
  · rw [div_le_one (by norm_num)]
    exact_mod_cast hr

/-- Reading with default 0 from a list of unit-interval values stays in
`[0, 1]`. -/
theorem getD_unit_bounds (l : List ℚ) (h : ∀ x ∈ l, 0 ≤ x ∧ x ≤ 1) (i : Nat) :
    0 ≤ l.getD i 0 ∧ l.getD i 0 ≤ 1 := by
  by_cases hi : i < l.length
  · rw [List.getD_eq_getElem l 0 hi]
    exact h _ (List.getElem_mem hi)
  · rw [List.getD_eq_default l 0 (by omega)]
    exact ⟨le_refl 0, by norm_num⟩

/-- For `0 ≤ q`, the fractional part `q - ⌊q⌋.toNat` lies in `[0, 1]`. -/
theorem fracPart_bounds (q : ℚ) (hq : 0 ≤ q) :
    0 ≤ q - ((⌊q⌋).toNat : ℚ) ∧ q - ((⌊q⌋).toNat : ℚ) ≤ 1 := by
  have h0 : (0 : ℤ) ≤ ⌊q⌋ := Int.floor_nonneg.mpr hq
  have hcast : (((⌊q⌋).toNat : ℤ) : ℚ) = ((⌊q⌋ : ℤ) : ℚ) :=
    mod_cast congrArg (Int.cast : ℤ → ℚ) (Int.toNat_of_nonneg h0)
  have heq : q - ((⌊q⌋).toNat : ℚ) = Int.fract q := by
    rw [Int.fract]
    push_cast at hcast ⊢
    rw [hcast]
  rw [heq]
  exact ⟨Int.fract_nonneg q, le_of_lt (Int.fract_lt_one q)⟩

/-- Interpolating between two unit-interval values with a unit-interval
weight stays in `[0, 1]`. -/
theorem lerp_unit_bounds {a b t : ℚ} (ha : 0 ≤ a ∧ a ≤ 1) (hb : 0 ≤ b ∧ b ≤ 1)
    (ht : 0 ≤ t ∧ t ≤ 1) : 0 ≤ lerp a b t ∧ lerp a b t ≤ 1 := by
  unfold lerp
  obtain ⟨ha0, ha1⟩ := ha; obtain ⟨hb0, hb1⟩ := hb; obtain ⟨ht0, ht1⟩ := ht
  constructor <;> nlinarith

/-- Cell reads from a unit-interval tensor stay in `[0, 1]`. -/
theorem at3_unit_bounds (t : Tensor) (hd : ∀ x ∈ t.data, 0 ≤ x ∧ x ≤ 1)
    (w c row col ch : Nat) :
    0 ≤ at3 t w c row col ch ∧ at3 t w c row col ch ≤ 1 :=
  getD_unit_bounds t.data hd _

/-- Each bilinear output cell is a nested convex combination of four input
cells, so it stays in `[0, 1]`. -/
theorem bilinearValue_bounds (t : Tensor) (hd : ∀ x ∈ t.data, 0 ≤ x ∧ x ≤ 1)
    (h w c oh ow r cl ch : Nat) :
    0 ≤ bilinearValue t h w c oh ow r cl ch ∧
      bilinearValue t h w c oh ow r cl ch ≤ 1 := by
  unfold bilinearValue
  exact lerp_unit_bounds
    (lerp_unit_bounds (at3_unit_bounds t hd _ _ _ _ _) (at3_unit_bounds t hd _ _ _ _ _)
      (fracPart_bounds _ (by positivity)))
    (lerp_unit_bounds (at3_unit_bounds t hd _ _ _ _ _) (at3_unit_bounds t hd _ _ _ _ _)
      (fracPart_bounds _ (by positivity)))
    (fracPart_bounds _ (by positivity))

/-- Bilinear resizing preserves the unit interval cellwise. -/
theorem resizeBilinear_bounds (t : Tensor) (h w c : Nat) (ht : t.shape = [h, w, c])
    (hd : ∀ x ∈ t.data, 0 ≤ x ∧ x ≤ 1) (oh ow : Nat) :
    ∀ x ∈ (resizeBilinear t oh ow).data, 0 ≤ x ∧ x ≤ 1 := by
  intro x hx
  unfold resizeBilinear at hx
  rw [ht] at hx
  simp only [List.mem_map, List.mem_range] at hx
  obtain ⟨i, _, rfl⟩ := hx
  exact bilinearValue_bounds t hd h w c oh ow _ _ _

/-- Every value the normalization loop emits is a channel byte over 255,
hence in `[0, 1]`. -/
theorem normalizeRGBA_bounds (l : List Nat) (hl : ∀ b ∈ l, b ≤ 255) :
    ∀ x ∈ normalizeRGBA l, 0 ≤ x ∧ x ≤ 1 := by
  induction l using normalizeRGBA.induct with
  | case1 r g b _a rest ih =>
    intro x hx
    simp only [normalizeRGBA, List.mem_cons] at hx
    rcases hx with h | h | h | h
    · exact h ▸ byte_div_bounds r (hl r (by simp))
    · exact h ▸ byte_div_bounds g (hl g (by simp))
    · exact h ▸ byte_div_bounds b (hl b (by simp))
    · exact ih (fun y hy => hl y (by simp [hy])) x h
  | case2 t h =>
    rcases t with _ | ⟨a, _ | ⟨b, _ | ⟨c, _ | ⟨d, rest⟩⟩⟩⟩
    · intro x hx; simp [normalizeRGBA] at hx
    · intro x hx; simp [normalizeRGBA] at hx
    · intro x hx; simp [normalizeRGBA] at hx
    · intro x hx; simp [normalizeRGBA] at hx
    · exact (h a b c d rest rfl).elim

/-!
## C1 — output shape and value range of `imageToTensor`
-/

/-- C1: for every well-formed decoded image of width and height at least 1,
`imageToTensor` returns a tensor of exact shape `[1, 224, 224, 3]` whose
elements all lie in the closed interval `[0, 1]`. -/
theorem imageToTensor_shape_range (img : RawImage)
    (_hW : 1 ≤ img.width) (_hH : 1 ≤ img.height) (hwf : img.wf) :
    (imageToTensor img).shape = [1, 224, 224, 3] ∧
    ∀ x ∈ (imageToTensor img).data, 0 ≤ x ∧ x ≤ 1 := by
  constructor
  · rfl
  · intro x hx
    have hbuf : ∀ y ∈ normalizeRGBA img.data, 0 ≤ y ∧ y ≤ 1 :=
      normalizeRGBA_bounds img.data hwf.2
    simp only [imageToTensor, expandDims0] at hx
    exact resizeBilinear_bounds (tensor3d (normalizeRGBA img.data) img.height img.width 3)
      img.height img.width 3 rfl hbuf 224 224 x hx

/-- C1 witness: the 1×1 image with RGBA bytes (255, 0, 128, 255) is
well-formed and the theorem applies to it. -/
theorem imageToTensor_shape_range_witness :
    (1 ≤ (RawImage.mk 1 1 [255, 0, 128, 255]).width ∧
     1 ≤ (RawImage.mk 1 1 [255, 0, 128, 255]).height ∧
     (RawImage.mk 1 1 [255, 0, 128, 255]).wf) ∧
    ((imageToTensor (RawImage.mk 1 1 [255, 0, 128, 255])).shape = [1, 224, 224, 3] ∧
     ∀ x ∈ (imageToTensor (RawImage.mk 1 1 [255, 0, 128, 255])).data, 0 ≤ x ∧ x ≤ 1) :=
  ⟨⟨by decide, by decide, by decide⟩,
   imageToTensor_shape_range (RawImage.mk 1 1 [255, 0, 128, 255])
     (by decide) (by decide) (by decide)⟩

/-!
## C2 — the normalization loop
-/

/-- C2: on a 4-byte-per-pixel RGBA buffer of `n` pixels, the normalization
loop of `imageToTensor` writes exactly 3 output values per 4 input bytes
(it never writes the alpha sample), and the output element at flat index
`3 * p + c` is the input byte at index `4 * p + c` divided by 255, for
every pixel index `p` and channel `c < 3`. -/
theorem normalizeRGBA_pixelwise (data : List Nat) (n : Nat)
    (hlen : data.length = 4 * n) :
    (normalizeRGBA data).length = 3 * n ∧
    ∀ p c, p < n → c < 3 →
      (normalizeRGBA data).getD (3 * p + c) 0 = (data.getD (4 * p + c) 0 : ℚ) / 255 := by
  induction n generalizing data with
  | zero =>
    have : data = [] := List.eq_nil_of_length_eq_zero (by omega)
    subst this
    exact ⟨rfl, fun p c hp _ => absurd hp (Nat.not_lt_zero p)⟩
  | succ n ih =>
    rcases data with _ | ⟨r, _ | ⟨g, _ | ⟨b, _ | ⟨a, rest⟩⟩⟩⟩
    · simp only [List.length_nil] at hlen; omega
    · simp only [List.length_cons, List.length_nil] at hlen; omega
    · simp only [List.length_cons, List.length_nil] at hlen; omega
    · simp only [List.length_cons, List.length_nil] at hlen; omega
    · simp only [List.length_cons] at hlen
      obtain ⟨ihlen, ihidx⟩ := ih rest (by omega)
      constructor
      · simp only [normalizeRGBA, List.length_cons, ihlen]; omega
      · intro p c hp hc
        match p with
        | 0 =>
          interval_cases c <;> simp [normalizeRGBA]
        | p + 1 =>
          have h3 : 3 * (p + 1) + c = (3 * p + c) + 1 + 1 + 1 := by ring
          have h4 : 4 * (p + 1) + c = (4 * p + c) + 1 + 1 + 1 + 1 := by ring
          rw [h3, h4]
          simp only [normalizeRGBA, List.getD_cons_succ]
          exact ihidx p c (by omega) hc

/-- C2 witness: a concrete two-pixel buffer satisfies the length hypothesis
and the theorem applies to it. -/
theorem normalizeRGBA_pixelwise_witness :
    ([10, 20, 30, 40, 50, 60, 70, 80] : List Nat).length = 4 * 2 ∧
    ((normalizeRGBA [10, 20, 30, 40, 50, 60, 70, 80]).length = 3 * 2 ∧
     ∀ p c, p < 2 → c < 3 →
       (normalizeRGBA [10, 20, 30, 40, 50, 60, 70, 80]).getD (3 * p + c) 0 =
         (([10, 20, 30, 40, 50, 60, 70, 80] : List Nat).getD (4 * p + c) 0 : ℚ) / 255) :=
  ⟨by decide, normalizeRGBA_pixelwise [10, 20, 30, 40, 50, 60, 70, 80] 2 (by decide)⟩

/-!
## C4 — decode failures surface as the decoder's error, nothing else
-/

/-- C4: for every byte stream on which the decoder fails — e.g. a truncated
buffer — `imageToTensor` fails with exactly that `DecodeError`: the body has
no try/catch and nothing precedes the decode, so the error propagates
unchanged and no error of another kind is produced. -/
theorem imageToTensorE_decode_error
    (decode : List Nat → Except DecodeError RawImage) (bytes : List Nat)
    (e : DecodeError) (hdec : decode bytes = .error e) :
    imageToTensorE decode bytes = .error e := by
  unfold imageToTensorE
  rw [hdec]

/-- C4 witness: a decoder failing with "SOI not found" on the truncated
buffer `[255, 216]` makes `imageToTensor` fail with that same error. -/
theorem imageToTensorE_decode_error_witness :
    (fun _ : List Nat => (Except.error ⟨"SOI not found"⟩ :
        Except DecodeError RawImage)) [255, 216] =
      Except.error ⟨"SOI not found"⟩ ∧
    imageToTensorE
        (fun _ => Except.error ⟨"SOI not found"⟩) [255, 216] =
      Except.error ⟨"SOI not found"⟩ :=
  ⟨rfl, imageToTensorE_decode_error (fun _ => Except.error ⟨"SOI not found"⟩)
    [255, 216] ⟨"SOI not found"⟩ rfl⟩


/-!
## C3 — `imageToTensor` does not release its intermediate tensors

The spec requires the intermediate `[height, width, 3]` tensor and the
resized `[224, 224, 3]` tensor to be released synchronously before
`imageToTensor` returns.  The source contains no `dispose()` call at all:
running the function from an empty registry leaves all three allocated
tensors live, while only the final batched tensor (id 2) is handed to the
caller.
-/

/-- C3 evaluation: on the 1×1 all-white image from a fresh registry,
`imageToTensor` returns tensor id 2 but leaves 3 tensors live — the
intermediate `[1, 1, 3]` tensor (id 0) and the resized `[224, 224, 3]`
tensor (id 1) are never released, where the claim demands only the
returned tensor remain. -/
theorem imageToTensorAlloc_leaks_intermediates :
    (imageToTensorAlloc ⟨1, 1, [255, 255, 255, 255]⟩ ⟨0, []⟩).1 = 2 ∧
    numTensors (imageToTensorAlloc ⟨1, 1, [255, 255, 255, 255]⟩ ⟨0, []⟩).2 = 3 ∧
    ((imageToTensorAlloc ⟨1, 1, [255, 255, 255, 255]⟩ ⟨0, []⟩).2.live.map
        Prod.fst) = [0, 1, 2] :=
  ⟨rfl, rfl, rfl⟩

/-!
## C5 / C10 — caching behaviour of `loadModelAsync`
-/

/-- Helper: an uncached call whose stages all succeed returns the
environment's model handle, caches it, and emits the full event trace
(progress 10/30/80/100, both asset reads, one warm-up forward pass on
`tf.zeros([1,224,224,3])`). -/
theorem loadModelAsync_uncached_ok (env : LoadEnv) (s : AppState)
    (hc : s.modelCache = none) (hok : env.failAt = none) :
    (loadModelAsync env s).1 = .ok env.modelId ∧
    (loadModelAsync env s).2.1.modelCache = some env.modelId ∧
    (loadModelAsync env s).2.2 =
      [.progress 10, .assetRead, .assetRead, .progress 30, .progress 80,
       .predictRun (zerosT [1, 224, 224, 3]), .progress 100] := by
  unfold loadModelAsync
  rw [hc]
  simp [hok]

/-- C5: if a `loadModelAsync` call succeeds with handle `m` and final state
`s1`, a second call in sequence returns the very same cached handle `m`,
leaves the state untouched, and produces no events at all — in particular
it invokes the progress callback zero times and reads no model asset. -/
theorem loadModelAsync_cached (env env2 : LoadEnv) (s : AppState)
    (m : Nat) (s1 : AppState) (tr : List Event)
    (h : loadModelAsync env s = (.ok m, s1, tr)) :
    loadModelAsync env2 s1 = (.ok m, s1, []) := by
  have hc : s1.modelCache = some m := by
    unfold loadModelAsync at h
    cases hs : s.modelCache with
    | some m0 =>
      rw [hs] at h
      simp only [Prod.mk.injEq, Except.ok.injEq] at h
      rw [← h.2.1, hs, h.1]
    | none =>
      rw [hs] at h
      cases henv : env.failAt with
      | none =>
        simp only [henv] at h
        simp at h
        rw [← h.2.1]
        simp [h.1]
      | some st =>
        cases st <;> simp [henv] at h
  conv_lhs => rw [loadModelAsync]
  rw [hc]

/-- C5 witness: a concrete successful first load from an empty state,
followed by a second call that hits the cache. -/
theorem loadModelAsync_cached_witness :
    loadModelAsync ⟨none, 7, ⟨[1, 3], [0, 0, 0]⟩⟩ ⟨⟨0, []⟩, none⟩ =
      (.ok 7, ⟨⟨2, [(1, ⟨[1, 3], [0, 0, 0]⟩)]⟩, some 7⟩,
       [.progress 10, .assetRead, .assetRead, .progress 30, .progress 80,
        .predictRun (zerosT [1, 224, 224, 3]), .progress 100]) ∧
    loadModelAsync ⟨some .assets, 9, ⟨[1, 3], [0, 0, 0]⟩⟩
        ⟨⟨2, [(1, ⟨[1, 3], [0, 0, 0]⟩)]⟩, some 7⟩ =
      (.ok 7, ⟨⟨2, [(1, ⟨[1, 3], [0, 0, 0]⟩)]⟩, some 7⟩, []) :=
  ⟨rfl,
   loadModelAsync_cached ⟨none, 7, ⟨[1, 3], [0, 0, 0]⟩⟩
     ⟨some .assets, 9, ⟨[1, 3], [0, 0, 0]⟩⟩ ⟨⟨0, []⟩, none⟩ 7
     ⟨⟨2, [(1, ⟨[1, 3], [0, 0, 0]⟩)]⟩, some 7⟩
     [.progress 10, .assetRead, .assetRead, .progress 30, .progress 80,
      .predictRun (zerosT [1, 224, 224, 3]), .progress 100] rfl⟩

/-!
## C6 — the warm-up releases the dummy input but not the warm-up output

`loadModelAsync` runs exactly one warm-up forward pass on
`tf.zeros([1,224,224,3])` and disposes the dummy input, but the tensor
returned by `loadedModel.predict(dummyInput)` is discarded without
`dispose()`, so it is still live when the function returns.
-/

/-- C6 evaluation: a first (uncached) successful load performs exactly one
warm-up forward pass, on the zero-filled `[1, 224, 224, 3]` tensor, and
disposes the dummy input (id 0) — but the warm-up inference's output tensor
(id 1) remains allocated after the call returns, where the claim demands
every internally allocated buffer be released. -/
theorem loadModelAsync_warmup_output_leaks :
    (loadModelAsync ⟨none, 7, ⟨[1, 3], [0, 0, 0]⟩⟩ ⟨⟨0, []⟩, none⟩).1 = .ok 7 ∧
    ((loadModelAsync ⟨none, 7, ⟨[1, 3], [0, 0, 0]⟩⟩ ⟨⟨0, []⟩, none⟩).2.2.filter
        fun e => match e with | .predictRun _ => true | _ => false) =
      [.predictRun (zerosT [1, 224, 224, 3])] ∧
    ((loadModelAsync ⟨none, 7, ⟨[1, 3], [0, 0, 0]⟩⟩ ⟨⟨0, []⟩, none⟩).2.1.tf.live.map
        Prod.fst) = [1] ∧
    numTensors (loadModelAsync ⟨none, 7, ⟨[1, 3], [0, 0, 0]⟩⟩ ⟨⟨0, []⟩, none⟩).2.1.tf
      = 1 :=
  ⟨rfl, rfl, rfl, rfl⟩

/-- C10: if an uncached `loadModelAsync` call fails at any stage, the
stage's error is re-thrown, the module-level cache is left unset, and a
subsequent call re-runs the whole load from the beginning — reading both
assets and reporting progress 10/30/80/100 — before succeeding. -/
theorem loadModelAsync_failure_leaves_cache_unset (env : LoadEnv)
    (s : AppState) (st : LoadStage)
    (hc : s.modelCache = none) (hf : env.failAt = some st) :
    (loadModelAsync env s).1 = .error st ∧
    (loadModelAsync env s).2.1.modelCache = none ∧
    ∀ env2 : LoadEnv, env2.failAt = none →
      (loadModelAsync env2 (loadModelAsync env s).2.1).2.2 =
        [.progress 10, .assetRead, .assetRead, .progress 30, .progress 80,
         .predictRun (zerosT [1, 224, 224, 3]), .progress 100] ∧
      (loadModelAsync env2 (loadModelAsync env s).2.1).1 = .ok env2.modelId := by
  have hmain : (loadModelAsync env s).1 = .error st ∧
      (loadModelAsync env s).2.1.modelCache = none := by
    unfold loadModelAsync
    rw [hc]
    cases st <;> simp [hf, hc]
  refine ⟨hmain.1, hmain.2, fun env2 h2 => ?_⟩
  obtain ⟨h1, -, h3⟩ := loadModelAsync_uncached_ok env2 _ hmain.2 h2
  exact ⟨h3, h1⟩

/-- C10 witness: a load failing at model construction from an empty state
leaves the cache unset and the next call re-runs the full load. -/
theorem loadModelAsync_failure_witness :
    ((⟨⟨0, []⟩, none⟩ : AppState).modelCache = none ∧
     (⟨some .construct, 7, ⟨[1, 3], [0, 0, 0]⟩⟩ : LoadEnv).failAt = some .construct) ∧
    ((loadModelAsync ⟨some .construct, 7, ⟨[1, 3], [0, 0, 0]⟩⟩ ⟨⟨0, []⟩, none⟩).1 =
        .error .construct ∧
     (loadModelAsync ⟨some .construct, 7, ⟨[1, 3], [0, 0, 0]⟩⟩
        ⟨⟨0, []⟩, none⟩).2.1.modelCache = none ∧
     ∀ env2 : LoadEnv, env2.failAt = none →
       (loadModelAsync env2
           (loadModelAsync ⟨some .construct, 7, ⟨[1, 3], [0, 0, 0]⟩⟩
             ⟨⟨0, []⟩, none⟩).2.1).2.2 =
         [.progress 10, .assetRead, .assetRead, .progress 30, .progress 80,
          .predictRun (zerosT [1, 224, 224, 3]), .progress 100] ∧
       (loadModelAsync env2
           (loadModelAsync ⟨some .construct, 7, ⟨[1, 3], [0, 0, 0]⟩⟩
             ⟨⟨0, []⟩, none⟩).2.1).1 = .ok env2.modelId) :=
  ⟨⟨rfl, rfl⟩,
   loadModelAsync_failure_leaves_cache_unset
     ⟨some .construct, 7, ⟨[1, 3], [0, 0, 0]⟩⟩ ⟨⟨0, []⟩, none⟩ .construct rfl rfl⟩

/-!
## C7 — buffer accounting of a `processImage` call

On success, `processImage` disposes the input tensor and the prediction
tensor, but the two intermediates allocated inside `imageToTensor` stay
live; on a forward-pass failure, the `catch` block disposes nothing.  In
neither case does the tracked-buffer count return to its pre-call baseline.
-/

/-- C7 evaluation: from a baseline of 0 live tensors with a loaded model
(handle 7), a successful call on the 1×1 white image leaves 2 tensors live
(ids 0 and 1 — `imageToTensor`'s intermediates; the input tensor id 2 and
the prediction id 3 are disposed), and a call whose forward pass fails
leaves 3 tensors live — where the claim demands a return to the baseline 0
on both paths. -/
theorem processImage_buffer_count :
    numTensors (processImage
        ⟨.ok ⟨1, 1, [255, 255, 255, 255]⟩, .ok [1/2, 3/10, 1/5]⟩
        ⟨⟨0, []⟩, some 7, some 7, none, true⟩).tf = 2 ∧
    ((processImage
        ⟨.ok ⟨1, 1, [255, 255, 255, 255]⟩, .ok [1/2, 3/10, 1/5]⟩
        ⟨⟨0, []⟩, some 7, some 7, none, true⟩).tf.live.map Prod.fst) = [0, 1] ∧
    numTensors (processImage
        ⟨.ok ⟨1, 1, [255, 255, 255, 255]⟩, .error ⟨"backend failure"⟩⟩
        ⟨⟨0, []⟩, some 7, some 7, none, true⟩).tf = 3 :=
  ⟨rfl, rfl, rfl⟩

/-!
## C8 — positional pairing of labels and formatted confidences
-/

/-- C8: for every output vector `[p0, p1, p2]` of a successful forward
pass, `processImage` builds exactly the list pairing the fixed ordered
labels `Clean`, `Dirty`, `Invalid` with `(p[i] * 100).toFixed(2) + '%'` in
the positional order of the output vector — nothing is re-sorted. -/
theorem resultWithAnalysis_positional (result : List ℚ) (p0 p1 p2 : ℚ)
    (h : result = [p0, p1, p2]) :
    resultWithAnalysis result =
      [("Clean", toFixed2 (p0 * 100) ++ "%"),
       ("Dirty", toFixed2 (p1 * 100) ++ "%"),
       ("Invalid", toFixed2 (p2 * 100) ++ "%")] := by
  subst h
  rfl

/-- C8 witness: the output vector `[1/2, 3/10, 1/5]` is paired positionally
with the class labels. -/
theorem resultWithAnalysis_positional_witness :
    ([1/2, 3/10, 1/5] : List ℚ) = [1/2, 3/10, 1/5] ∧
    resultWithAnalysis [1/2, 3/10, 1/5] =
      [("Clean", toFixed2 ((1/2 : ℚ) * 100) ++ "%"),
       ("Dirty", toFixed2 ((3/10 : ℚ) * 100) ++ "%"),
       ("Invalid", toFixed2 ((1/5 : ℚ) * 100) ++ "%")] :=
  ⟨rfl, resultWithAnalysis_positional [1/2, 3/10, 1/5] (1/2) (3/10) (1/5) rfl⟩

/-!
## C9 — a failed prediction does not corrupt the model state
-/

/-- No branch of `processImage` writes the module-level `modelCache` or the
component's `model` state. -/
theorem processImage_frame (env : PEnv) (s : CompState) :
    (processImage env s).modelCache = s.modelCache ∧
    (processImage env s).model = s.model := by
  rcases s with ⟨tf, mc, mo, pr, an⟩
  unfold processImage
  rcases mo with _ | m
  · simp
  · cases hd : env.decodeResult with
    | error e => simp
    | ok img => cases hp : env.predictResult <;> simp

/-- A `processImage` call with a loaded model, a successful decode and a
successful forward pass stores the positional label pairing as its
result. -/
theorem processImage_ok_result (env : PEnv) (s : CompState) (m : Nat)
    (img : RawImage) (probs : List ℚ) (hm : s.model = some m)
    (hd : env.decodeResult = .ok img) (hp : env.predictResult = .ok probs) :
    (processImage env s).predictionResult = some (resultWithAnalysis probs) := by
  rcases s with ⟨tf, mc, mo, pr, an⟩
  obtain rfl : mo = some m := hm
  unfold processImage
  simp [hd, hp]

/-- C9: any failing `processImage` call on a loaded model (decode failure
or forward-pass failure) leaves the process-wide model cache and the
component's model handle unchanged, so a subsequent call on the same model
with valid input still succeeds and stores the positional label pairing,
with no re-initialization. -/
theorem processImage_failure_keeps_model (env : PEnv) (s : CompState) (m : Nat)
    (hm : s.model = some m)
    (_hfail : (∃ e, env.decodeResult = Except.error e) ∨
              (∃ e, env.predictResult = Except.error e))
    (env2 : PEnv) (img : RawImage) (probs : List ℚ)
    (h2d : env2.decodeResult = .ok img) (h2p : env2.predictResult = .ok probs) :
    (processImage env s).modelCache = s.modelCache ∧
    (processImage env s).model = s.model ∧
    (processImage env2 (processImage env s)).predictionResult =
      some (resultWithAnalysis probs) := by
  obtain ⟨hmc, hmo⟩ := processImage_frame env s
  exact ⟨hmc, hmo,
    processImage_ok_result env2 _ m img probs (hmo.trans hm) h2d h2p⟩

/-- C9 witness: a forward-pass failure on a loaded model (handle 7),
followed by a successful call on the same model. -/
theorem processImage_failure_keeps_model_witness :
    ((⟨⟨0, []⟩, some 7, some 7, none, true⟩ : CompState).model = some 7 ∧
     ((∃ e, (⟨.ok ⟨1, 1, [255, 255, 255, 255]⟩, .error ⟨"backend failure"⟩⟩ :
         PEnv).decodeResult = Except.error e) ∨
      (∃ e, (⟨.ok ⟨1, 1, [255, 255, 255, 255]⟩, .error ⟨"backend failure"⟩⟩ :
         PEnv).predictResult = Except.error e))) ∧
    ((processImage ⟨.ok ⟨1, 1, [255, 255, 255, 255]⟩, .error ⟨"backend failure"⟩⟩
        ⟨⟨0, []⟩, some 7, some 7, none, true⟩).modelCache =
      (⟨⟨0, []⟩, some 7, some 7, none, true⟩ : CompState).modelCache ∧
     (processImage ⟨.ok ⟨1, 1, [255, 255, 255, 255]⟩, .error ⟨"backend failure"⟩⟩
        ⟨⟨0, []⟩, some 7, some 7, none, true⟩).model =
      (⟨⟨0, []⟩, some 7, some 7, none, true⟩ : CompState).model ∧
     (processImage ⟨.ok ⟨1, 1, [255, 255, 255, 255]⟩, .ok [1/2, 3/10, 1/5]⟩
        (processImage ⟨.ok ⟨1, 1, [255, 255, 255, 255]⟩, .error ⟨"backend failure"⟩⟩
          ⟨⟨0, []⟩, some 7, some 7, none, true⟩)).predictionResult =
      some (resultWithAnalysis [1/2, 3/10, 1/5])) :=
  ⟨⟨rfl, Or.inr ⟨⟨"backend failure"⟩, rfl⟩⟩,
   processImage_failure_keeps_model
     ⟨.ok ⟨1, 1, [255, 255, 255, 255]⟩, .error ⟨"backend failure"⟩⟩
     ⟨⟨0, []⟩, some 7, some 7, none, true⟩ 7 rfl
     (Or.inr ⟨⟨"backend failure"⟩, rfl⟩)
     ⟨.ok ⟨1, 1, [255, 255, 255, 255]⟩, .ok [1/2, 3/10, 1/5]⟩
     ⟨1, 1, [255, 255, 255, 255]⟩ [1/2, 3/10, 1/5] rfl rfl⟩
